import Mathlib

/-!
Shallow embedding of the SAMscope repository (src/diagnose.py, src/dashboard.py).

Modelling conventions:
* Python floats are modelled as exact rationals (ℚ).  Every numeric fact proved
  below involves only values and comparisons that are exact in binary64 as well,
  so no claim depends on the float/ℚ gap.
* Python exceptions are modelled with `Except Unit`: `Except.error ()` marks a
  raised `ValueError`; functions that cannot raise are plain functions.
* `str.splitlines` is modelled for texts whose only line terminator is `'\n'`
  (the dumps parsed by this program); the exotic terminators `\r`, `\f`, … are
  outside the model.  `\d` and `\w` are modelled as their ASCII classes, and
  `float()` is modelled on finite decimal literals (optional sign, digits,
  decimal point, exponent); the special spellings `inf`/`nan` and underscore
  separators are outside the model.
* The regular expressions of the source are embedded as deterministic matchers:
  every capturing class in those patterns is disjoint from the character that
  must follow it, so greedy matching with no backtracking is exact.
-/

deriving instance DecidableEq for Except

namespace SAMscope

/-- Character class of Python's `\s` (ASCII part): the characters stripped by
`str.strip()` and separating tokens for `str.split()`. -/
def isPySpace (c : Char) : Bool :=
  c == ' ' || c == '\t' || c == '\n' || c == '\r' || c == '\x0b' || c == '\x0c'

/-- Negation of `isPySpace`, the class of `\S`. -/
def notWsChar (c : Char) : Bool := !(isPySpace c)

/-- Character class `[\d.]`. -/
def isDigitDotChar (c : Char) : Bool := c.isDigit || c == '.'

/-- Character class `[\d:]`. -/
def isDigitColonChar (c : Char) : Bool := c.isDigit || c == ':'

/-- Character class `[\d,]`. -/
def isDigitCommaChar (c : Char) : Bool := c.isDigit || c == ','

/-- Character class `[a-f0-9]`. -/
def isHexLowerChar (c : Char) : Bool :=
  c.isDigit || (decide ('a' ≤ c) && decide (c ≤ 'f'))

/-- Character class `[A-Z0-9_]`. -/
def isUpperAlnumChar (c : Char) : Bool :=
  (decide ('A' ≤ c) && decide (c ≤ 'Z')) || c.isDigit || c == '_'

/-- Character class `[\w.]` (ASCII `\w` plus the dot). -/
def isWordDotChar (c : Char) : Bool := c.isAlphanum || c == '_' || c == '.'

/-- Auxiliary scanner for `pySplitlines`; `acc` holds the current line reversed. -/
def pySplitlinesAux (acc : List Char) : List Char → List String
  | [] => if acc.isEmpty then [] else [String.mk acc.reverse]
  | c :: cs =>
    if c == '\n' then String.mk acc.reverse :: pySplitlinesAux [] cs
    else pySplitlinesAux (c :: acc) cs

/-- Python `str.splitlines()` for texts whose only terminator is `'\n'`:
no trailing empty line is produced for text ending in a newline. -/
def pySplitlines (s : String) : List String := pySplitlinesAux [] s.data

/-- Python `str.strip()` (ASCII whitespace). -/
def pyStrip (s : String) : String :=
  String.mk (((s.data.dropWhile isPySpace).reverse.dropWhile isPySpace).reverse)

/-- Auxiliary scanner for `pySplit`; `acc` holds the current token reversed. -/
def pySplitAux (acc : List Char) : List Char → List String
  | [] => if acc.isEmpty then [] else [String.mk acc.reverse]
  | c :: cs =>
    if isPySpace c then
      if acc.isEmpty then pySplitAux [] cs
      else String.mk acc.reverse :: pySplitAux [] cs
    else pySplitAux (c :: acc) cs

/-- Python `str.split()` with no argument: split on whitespace runs, no empty tokens. -/
def pySplit (s : String) : List String := pySplitAux [] s.data

/-- Whether `pat` is a prefix of `s` (Python `str.startswith`). -/
def listStartsWith : List Char → List Char → Bool
  | _, [] => true
  | [], _ :: _ => false
  | c :: cs, p :: ps => c == p && listStartsWith cs ps

/-- Whether `pat` occurs as a contiguous substring of `s` (Python `in`). -/
def listContainsSub : List Char → List Char → Bool
  | [], pat => pat.isEmpty
  | s@(_ :: rest), pat => listStartsWith s pat || listContainsSub rest pat

/-- Numeric value of a string of decimal digits (most significant first). -/
def digitsToNat (s : List Char) : ℕ :=
  s.foldl (fun acc c => 10 * acc + (c.toNat - 48)) 0

/-- The rational `10 ^ n`, built through ℕ so that it reduces in the kernel. -/
def pow10 (n : ℕ) : ℚ := ((10 ^ n : ℕ) : ℚ)

/-- Exponent digits of a float literal: a nonempty all-digit string. -/
def pyExpNat (s : List Char) : Option ℕ :=
  if !s.isEmpty && s.all Char.isDigit then some (digitsToNat s) else none

/-- Scale factor named by the part after `e`/`E` in a float literal. -/
def pyExpScale (s : List Char) : Option ℚ :=
  match s with
  | '+' :: r => (pyExpNat r).map (fun n => pow10 n)
  | '-' :: r => (pyExpNat r).map (fun n => (pow10 n)⁻¹)
  | _ => (pyExpNat s).map (fun n => pow10 n)

/-- Scale factor of the optional exponent suffix of a float literal;
`some 1` when the suffix is absent (empty rest). -/
def pyExponent (s : List Char) : Option ℚ :=
  match s with
  | [] => some 1
  | 'e' :: r => pyExpScale r
  | 'E' :: r => pyExpScale r
  | _ => none

/-- Value of an integer part `ip` and fraction part `fp` of a decimal literal. -/
def pyMantissa (ip fp : List Char) : ℚ :=
  (digitsToNat ip : ℚ) + (digitsToNat fp : ℚ) / pow10 fp.length

/-- Python `float()` on an unsigned literal: digits, optional point and
fraction digits, optional exponent; at least one mantissa digit required. -/
def pyFloatUnsigned (s : List Char) : Option ℚ :=
  match s.drop (s.takeWhile Char.isDigit).length with
  | '.' :: r2 =>
    if (s.takeWhile Char.isDigit).isEmpty && (r2.takeWhile Char.isDigit).isEmpty then none
    else
      (pyExponent (r2.drop (r2.takeWhile Char.isDigit).length)).map
        (fun e => pyMantissa (s.takeWhile Char.isDigit) (r2.takeWhile Char.isDigit) * e)
  | _ =>
    if (s.takeWhile Char.isDigit).isEmpty then none
    else
      (pyExponent (s.drop (s.takeWhile Char.isDigit).length)).map
        (fun e => pyMantissa (s.takeWhile Char.isDigit) [] * e)

/-- Python `float()` on finite decimal literals: `none` models `ValueError`. -/
def pyFloat (s : List Char) : Option ℚ :=
  match s with
  | '+' :: r => pyFloatUnsigned r
  | '-' :: r => (pyFloatUnsigned r).map Neg.neg
  | _ => pyFloatUnsigned s

/-- Python `float()` at a call site where a failure propagates as `ValueError`. -/
def pyFloatExc (s : List Char) : Except Unit ℚ :=
  match pyFloat s with
  | some q => Except.ok q
  | none => Except.error ()

/-- Python `int()` at a call site receiving only digit characters (possibly
none, in which case `int('')` raises `ValueError`). -/
def pyIntExc (s : List Char) : Except Unit ℕ :=
  if !s.isEmpty && s.all Char.isDigit then Except.ok (digitsToNat s) else Except.error ()

/-- Consume a literal string at the head of the input, or fail. -/
def dropLit (pat s : List Char) : Option (List Char) :=
  if listStartsWith s pat then some (s.drop pat.length) else none

/-- Consume a nonempty maximal run of characters satisfying `p` and return
(run, rest).  This is exact for every `class+` occurrence embedded below,
because each is followed by a character outside the class. -/
def takeGroup (p : Char → Bool) (s : List Char) : Option (List Char × List Char) :=
  if (s.takeWhile p).isEmpty then none
  else some (s.takeWhile p, s.drop (s.takeWhile p).length)

/-- Consume `\s+`: a nonempty maximal whitespace run. -/
def skipWs1 (s : List Char) : Option (List Char) :=
  (takeGroup isPySpace s).map (fun g => g.2)

/-- Consume `\s+\S+` (a separator and an uncaptured token). -/
def skipToken (s : List Char) : Option (List Char) := do
  let s1 ← skipWs1 s
  let g ← takeGroup notWsChar s1
  pure g.2

/-- Match `\s+(.+)` against the whole rest of a line and return the group:
the rest after the whitespace run when that is nonempty, else (for an
all-whitespace rest of length ≥ 2, by backtracking) the final character. -/
def matchSpacesThenRest (s : List Char) : Option (List Char) :=
  match s with
  | [] => none
  | c :: rest =>
    if isPySpace c then
      let after := s.dropWhile isPySpace
      if !after.isEmpty then some after
      else
        match rest.getLast? with
        | some d => some [d]
        | none => none
    else none

/-- Largest index of `c` in `l`, if any. -/
def lastIdxOf (c : Char) : List Char → Option ℕ
  | [] => none
  | x :: xs =>
    match lastIdxOf c xs with
    | some j => some (j + 1)
    | none => if x == c then some 0 else none

/-! ### Data model (`diagnose.py` / `dashboard.py` record shapes) -/

/-- One row of the process table (dict built by `collect_cpu_stats_from_raw`). -/
structure ProcessSample where
  pid : ℕ
  user : String
  cpu : ℚ
  mem : ℚ
  time : String
  name : String
deriving DecidableEq

/-- One entry of the memory table (dict built by `collect_ram_stats_from_raw`). -/
structure MemoryEntry where
  name : String
  pid : ℕ
  ram_mb : ℚ
deriving DecidableEq

/-- Result of `collect_gfx_stats_from_raw`: `none` fields are the Python `None`
sentinel used when no frame was parsed. -/
structure GfxStats where
  avg_frame_time_ms : Option ℚ
  jank_frames : Option ℕ
  total_frames : ℕ
deriving DecidableEq

/-! ### Command runner (`run_adb` in dashboard.py, `run_adb_command` in diagnose.py) -/

/-- Outcome of the underlying `subprocess.run` call. -/
inductive CmdOutcome where
  | completed (returncode : ℤ) (stdout stderr : String)
  | timedOut
  | adbMissing
deriving DecidableEq

/-- How a call to `run_adb_command` ends, seen from its caller. -/
inductive RunnerResult where
  | returned (out : String)
  | raisedRuntimeError (msg : String)
  | exitedFatal
deriving DecidableEq

/-- The string literal holding a single space. -/
def strSpace : String := " "

/-- The string literal holding a single newline. -/
def strNewline : String := "\n"

/-- Message of the `RuntimeError` raised by `run_adb_command` (diagnose.py line 64). -/
def adbErrorMessage (cmd : List String) (stderr : String) : String :=
  "ADB error: " ++ String.intercalate strSpace cmd ++ strNewline ++ pyStrip stderr

/-- Embeds `run_adb` (dashboard.py lines 23-31): a non-zero exit code and any
exception (timeout, missing adb) all map to the empty string. -/
def run_adb (o : CmdOutcome) : String :=
  match o with
  | .completed rc out _ => if rc == 0 then out else ""
  | .timedOut => ""
  | .adbMissing => ""

/-- Embeds `run_adb_command` (diagnose.py lines 59-71): a non-zero exit code
raises `RuntimeError` (uncaught by its `except` clauses), a timeout returns
the empty string, a missing adb exits the process. -/
def run_adb_command (cmd : List String) (o : CmdOutcome) : RunnerResult :=
  match o with
  | .completed rc out err =>
    if rc == 0 then .returned out else .raisedRuntimeError (adbErrorMessage cmd err)
  | .timedOut => .returned ""
  | .adbMissing => .exitedFatal

/-! ### ANSI stripping and the CPU-table parser -/

/-- Fuelled scanner removing ANSI CSI sequences: ESC, an open bracket, a run
over `0x30`–`0x3f`, a run over `0x20`–`0x2f`, one final byte in `0x40`–`0x7e`
(the pattern of `strip_ansi`); each recursive step consumes at least one
character, so fuel equal to the length is enough. -/
def stripAnsiAux : ℕ → List Char → List Char
  | 0, _ => []
  | _ + 1, [] => []
  | fuel + 1, c :: cs =>
    if c == '\x1b' then
      match cs with
      | '[' :: rest =>
        let r1 := rest.dropWhile (fun d => decide ('0' ≤ d) && decide (d ≤ '?'))
        let r2 := r1.dropWhile (fun d => decide (' ' ≤ d) && decide (d ≤ '/'))
        match r2 with
        | d :: r3 =>
          if decide ('@' ≤ d) && decide (d ≤ '~') then stripAnsiAux fuel r3
          else c :: stripAnsiAux fuel cs
        | [] => c :: stripAnsiAux fuel cs
      | _ => c :: stripAnsiAux fuel cs
    else c :: stripAnsiAux fuel cs

/-- Embeds `strip_ansi` (identical in both files). -/
def strip_ansi (s : String) : String :=
  String.mk (stripAnsiAux s.data.length s.data)

/-- The literal `[%CPU]` looked for in the process-table header. -/
def cpuHeaderMarker : String := "[%CPU]"

/-- Whether the pattern `PID\s+USER` matches at the head of `s`. -/
def pidUserHere (s : List Char) : Bool :=
  listStartsWith s ("PID").data &&
    (let r := (s.drop 3).takeWhile isPySpace
     !r.isEmpty && listStartsWith ((s.drop 3).drop r.length) ("USER").data)

/-- Whether `re.search(r'PID\s+USER', line)` finds a match anywhere. -/
def hasPidUser : List Char → Bool
  | [] => false
  | s@(_ :: rest) => pidUserHere s || hasPidUser rest

/-- Header test of `collect_cpu_stats_from_raw` (both files, e.g. diagnose.py
line 411): a PID/USER marker plus the literal `[%CPU]`. -/
def isCpuHeader (line : String) : Bool :=
  hasPidUser line.data && listContainsSub line.data cpuHeaderMarker.data

/-- The lines strictly after the first header line, if a header exists. -/
def linesAfterCpuHeader : List String → Option (List String)
  | [] => none
  | l :: ls => if isCpuHeader l then some ls else linesAfterCpuHeader ls

/-- Raw captured groups of the two process-row patterns. -/
structure CpuGroups where
  pid : List Char
  user : List Char
  cpu : List Char
  mem : List Char
  time : List Char
  name : List Char

/-- Raw groups through the TIME column plus the unconsumed rest: the part
`\s*(\d+)\s+(\S+)` + six `\s+\S+` + `\s+([\d.]+)\s+([\d.]+)\s+([\d:]+)`
shared by the strict and the loose process-row pattern. -/
structure CpuCommon where
  pid : List Char
  user : List Char
  cpu : List Char
  mem : List Char
  time : List Char
  rest : List Char

/-- Deterministic matcher for the shared part of the two process-row patterns. -/
def matchCpuCommon (s0 : List Char) : Option CpuCommon := do
  let s := s0.dropWhile isPySpace
  let (pid, s) ← takeGroup Char.isDigit s
  let s ← skipWs1 s
  let (user, s) ← takeGroup notWsChar s
  let s ← skipToken s
  let s ← skipToken s
  let s ← skipToken s
  let s ← skipToken s
  let s ← skipToken s
  let s ← skipToken s
  let s ← skipWs1 s
  let (cpu, s) ← takeGroup isDigitDotChar s
  let s ← skipWs1 s
  let (mem, s) ← takeGroup isDigitDotChar s
  let s ← skipWs1 s
  let (time, s) ← takeGroup isDigitColonChar s
  pure ⟨pid, user, cpu, mem, time, s⟩

/-- The strict process-row pattern (diagnose.py line 419): NAME is `(\S+)`. -/
def matchCpuStrict (line : List Char) : Option CpuGroups := do
  let c ← matchCpuCommon line
  let s ← skipWs1 c.rest
  let (name, _) ← takeGroup notWsChar s
  pure ⟨c.pid, c.user, c.cpu, c.mem, c.time, name⟩

/-- The loose fallback pattern (diagnose.py line 432): NAME is `(.+)`,
accepting embedded spaces in truncated names. -/
def matchCpuLoose (line : List Char) : Option CpuGroups := do
  let c ← matchCpuCommon line
  let name ← matchSpacesThenRest c.rest
  pure ⟨c.pid, c.user, c.cpu, c.mem, c.time, name⟩

/-- Field conversions of a matched process row; `float()` on the CPU or MEM
group can raise `ValueError`. -/
def cpuRowOfGroups (g : CpuGroups) : Except Unit ProcessSample := do
  let c ← pyFloatExc g.cpu
  let m ← pyFloatExc g.mem
  Except.ok ⟨digitsToNat g.pid, String.mk g.user, c, m, String.mk g.time, String.mk g.name⟩

/-- Processing of one line after the header: strict pattern first, loose
fallback second, skip when neither matches. -/
def cpuRow (line : String) : Except Unit (Option ProcessSample) :=
  match matchCpuStrict line.data with
  | some g => (cpuRowOfGroups g).map some
  | none =>
    match matchCpuLoose line.data with
    | some g => (cpuRowOfGroups g).map some
    | none => Except.ok none

/-- The row loop of `collect_cpu_stats_from_raw`: the first raising row
propagates its exception, matched rows accumulate in order. -/
def cpuRows : List String → Except Unit (List ProcessSample)
  | [] => Except.ok []
  | l :: ls =>
    match cpuRow l with
    | Except.error e => Except.error e
    | Except.ok h =>
      match cpuRows ls with
      | Except.error e => Except.error e
      | Except.ok rest =>
        match h with
        | some p => Except.ok (p :: rest)
        | none => Except.ok rest

/-- Embeds `collect_cpu_stats_from_raw` (identical in both files): strip ANSI
from the nonblank lines, find the header, parse the rows after it. -/
def collect_cpu_stats_from_raw (raw : String) : Except Unit (List ProcessSample) :=
  let lines := ((pySplitlines raw).filter (fun l => !(pyStrip l == ""))).map strip_ansi
  match linesAfterCpuHeader lines with
  | none => Except.ok []
  | some rows => cpuRows rows

/-! ### Memory parser -/

/-- The section marker looked for by the memory parser. -/
def ramMarker : String := "Total RSS by process:"

/-- The literal between the process name and the pid in a memory line. -/
def ramPidLit : String := " (pid "

/-- The lines strictly after the first line containing the section marker. -/
def linesAfterRamMarker : List String → Option (List String)
  | [] => none
  | l :: ls =>
    if listContainsSub l.data ramMarker.data then some ls else linesAfterRamMarker ls

/-- Matcher for the tail that must follow the lazily-captured name: a pid-
open literal, the digit group, then either a close paren directly or a
slash-extra part holding a close paren after at least one character. -/
def pidTail (s : List Char) : Option (List Char) := do
  let r ← dropLit ramPidLit.data s
  let (pid, r2) ← takeGroup Char.isDigit r
  match r2 with
  | ')' :: _ => some pid
  | ' ' :: '/' :: r3 => if (r3.drop 1).contains ')' then some pid else none
  | _ => none

/-- Lazy search for the shortest nonempty name prefix whose remainder
matches `pidTail` (the `(.+?)` group of the memory-line pattern). -/
def ramNameSearch (nameAcc : List Char) : List Char → Option (List Char × List Char)
  | [] => none
  | c :: rest =>
    match pidTail rest with
    | some pid => some ((nameAcc ++ [c]), pid)
    | none => ramNameSearch (nameAcc ++ [c]) rest

/-- Deterministic matcher for the memory-line pattern (diagnose.py line 457,
identical in dashboard.py line 84): returns the (kB, name, pid) groups. -/
def matchRamLine (line : List Char) : Option (List Char × List Char × List Char) :=
  let s := line.dropWhile isPySpace
  let kb := s.takeWhile isDigitCommaChar
  if kb.isEmpty then none
  else
    match dropLit ("K: ").data (s.drop kb.length) with
    | some r =>
      match ramNameSearch [] r with
      | some (name, pid) => some (kb, name, pid)
      | none => none
    | none => none

/-- The row loop of `collect_ram_stats_from_raw`: matched lines are converted
(`int()` on the de-commaed size can raise), a blank unmatched line stops the
scan, other unmatched lines are skipped. -/
def ramRows : List String → Except Unit (List MemoryEntry)
  | [] => Except.ok []
  | l :: ls =>
    match matchRamLine l.data with
    | some (kb, name, pid) => do
      let n ← pyIntExc (kb.filter (fun c => !(c == ',')))
      let rest ← ramRows ls
      Except.ok (⟨String.mk name, digitsToNat pid, (n : ℚ) / 1024⟩ :: rest)
    | none => if pyStrip l == "" then Except.ok [] else ramRows ls

/-- Comparator of the final `apps.sort(key=..., reverse=True)`: descending by
`ram_mb`; `List.mergeSort` is stable, as is Python's sort. -/
def ramLe (a b : MemoryEntry) : Bool := decide (b.ram_mb ≤ a.ram_mb)

/-- Embeds `collect_ram_stats_from_raw` (identical in both files). -/
def collect_ram_stats_from_raw (raw : String) : Except Unit (List MemoryEntry) :=
  match linesAfterRamMarker (pySplitlines raw) with
  | none => Except.ok []
  | some rows => (ramRows rows).map (fun l => l.mergeSort ramLe)

/-! ### Thermal parser -/

/-- Literal pieces of the thermal pattern
`Temperature\x7bmValue=([\d.]+), mType=\d+, mName=([A-Z0-9_]+), mStatus=\d+\x7d`. -/
def tempLit1 : String := "Temperature\x7bmValue="

/-- Literal between the value group and the type field. -/
def tempLit2 : String := ", mType="

/-- Literal between the type field and the name group. -/
def tempLit3 : String := ", mName="

/-- Literal between the name group and the status field. -/
def tempLit4 : String := ", mStatus="

/-- The closing brace of the thermal pattern. -/
def tempLit5 : String := "\x7d"

/-- Deterministic matcher for the thermal pattern at the head of `s`:
returns the (value, name) groups. -/
def tempHere (s : List Char) : Option (List Char × List Char) := do
  let s1 ← dropLit tempLit1.data s
  let (value, s2) ← takeGroup isDigitDotChar s1
  let s3 ← dropLit tempLit2.data s2
  let (_, s4) ← takeGroup Char.isDigit s3
  let s5 ← dropLit tempLit3.data s4
  let (name, s6) ← takeGroup isUpperAlnumChar s5
  let s7 ← dropLit tempLit4.data s6
  let (_, s8) ← takeGroup Char.isDigit s7
  let _ ← dropLit tempLit5.data s8
  pure (value, name)

/-- Leftmost `re.search` of the thermal pattern in a line. -/
def searchTemp : List Char → Option (List Char × List Char)
  | [] => none
  | s@(_ :: rest) =>
    match tempHere s with
    | some r => some r
    | none => searchTemp rest

/-- Insertion into a Python dict modelled as an insertion-ordered association
list: an existing key keeps its position and gets the new value. -/
def dictInsert (d : List (String × ℚ)) (k : String) (v : ℚ) : List (String × ℚ) :=
  if d.any (fun p => p.1 == k) then d.map (fun p => if p.1 == k then (k, v) else p)
  else d ++ [(k, v)]

/-- The line loop of `collect_thermal_info_from_raw`; `float()` on the value
group can raise. -/
def thermalLines : List String → List (String × ℚ) → Except Unit (List (String × ℚ))
  | [], d => Except.ok d
  | l :: ls, d =>
    match searchTemp l.data with
    | some (v, name) =>
      match pyFloatExc v with
      | Except.ok q => thermalLines ls (dictInsert d (String.mk name) q)
      | Except.error e => Except.error e
    | none => thermalLines ls d

/-- Embeds `collect_thermal_info_from_raw` (identical in both files). -/
def collect_thermal_info_from_raw (raw : String) : Except Unit (List (String × ℚ)) :=
  thermalLines (pySplitlines raw) []

/-! ### Frame-profile parser -/

/-- The section marker of the frame profile. -/
def gfxMarker : String := "Profile data in ms:"

/-- The jank threshold `16.67` ms. -/
def jankThreshold : ℚ := 1667 / 100

/-- One line inside the profile section: exactly three whitespace-separated
tokens that all convert with `float()`; the frame time is their sum.
`ValueError` is caught by the source (`try`/`except`), so a failing token
yields `none` (line skipped), never an exception. -/
def parseFrameLine (line : String) : Option ℚ :=
  match pySplit (pyStrip line) with
  | [a, b, c] => do
    let x ← pyFloat a.data
    let y ← pyFloat b.data
    let z ← pyFloat c.data
    pure (x + y + z)
  | _ => none

/-- The line loop of `collect_gfx_stats_from_raw`: the marker line turns the
section on, a blank line inside the section stops the loop. -/
def gfxFrameTimes : List String → Bool → List ℚ
  | [], _ => []
  | l :: ls, inSection =>
    if listContainsSub l.data gfxMarker.data then gfxFrameTimes ls true
    else if inSection then
      if pyStrip l == "" then []
      else
        match parseFrameLine l with
        | some t => t :: gfxFrameTimes ls true
        | none => gfxFrameTimes ls true
    else gfxFrameTimes ls false

/-- Embeds `collect_gfx_stats_from_raw` (diagnose.py lines 481-502). -/
def collect_gfx_stats_from_raw (raw : String) : GfxStats :=
  let ts := gfxFrameTimes (pySplitlines raw) false
  if ts.isEmpty then ⟨none, none, 0⟩
  else
    ⟨some (ts.sum / (ts.length : ℚ)),
     some (ts.countP (fun t => decide (jankThreshold < t))),
     ts.length⟩

/-! ### Services parser -/

/-- The opening literal of the service-record pattern. -/
def svcLit : String := "* ServiceRecord\x7b"

/-- Deterministic matcher for the service-record pattern (diagnose.py line
508): returns the (package, service) groups; the service group runs to the
last close brace of its non-space run (greedy `\S+` before the brace). -/
def matchSvcLine (line : List Char) : Option (List Char × List Char) := do
  let s := line.dropWhile isPySpace
  let s ← dropLit svcLit.data s
  let (_, s) ← takeGroup isHexLowerChar s
  let s ← dropLit [' ', 'u'] s
  let (_, s) ← takeGroup Char.isDigit s
  let s ← dropLit [' '] s
  let (pkg, s) ← takeGroup isWordDotChar s
  let s ← dropLit ['/'] s
  let run := s.takeWhile notWsChar
  let j ← lastIdxOf '}' run
  if 1 ≤ j then pure (pkg, run.take j) else none

/-- Embeds `collect_services_from_raw` (diagnose.py lines 504-512). -/
def collect_services_from_raw (raw : String) : List String :=
  (pySplitlines raw).filterMap (fun l =>
    (matchSvcLine l.data).map (fun g => String.mk g.1 ++ ("/" : String) ++ String.mk g.2))

/-! ### Classifier -/

/-- The fixed allow-list of system/vendor process-name prefixes
(diagnose.py lines 185-188, verbatim including its duplicates). -/
def system_names : List String := [
  "system_server", "surfaceflinger", "audioserver", "mediaserver", "zygote", "init",
  "logd", "statsd", "adbd",
  "android.hardware", "vendor.", "servicemanager", "hwservicemanager", "gatekeeperd",
  "keystore2", "rild", "netd", "lmkd", "cameraserver", "drmserver", "gpsd",
  "vaultkeeperd", "watchdogd", "traced", "traced_probes", "tombstoned", "ueventd",
  "vold", "auditd", "credstore", "perfsdkserver", "main_abox", "abox_log",
  "fabric_crypto", "incidentd", "iod", "cass", "smdexe", "speg_helper", "spqr_service",
  "emservice", "tzdaemon", "prng_seeder", "smc_server", "wlbtd", "connfwexe", "ddexe",
  "diagexe", "cbd", "media.swcodec", "media.extractor", "media.metrics",
  "android.system.suspend-service", "android.hardware.memtrack-service.exynos",
  "android.hardware.bluetooth@1.0-service", "android.hardware.drm-service.widevine",
  "android.hardware.drm-service.clearkey", "android.hardware.gatekeeper@1.0-service",
  "android.hardware.graphics.allocator@4.0-service",
  "android.hardware.graphics.composer@2.2-service",
  "android.hardware.power.samsung-service", "android.hardware.sensors-service.multihal",
  "android.hardware.usb@1.3-service.coral", "android.hardware.vibrator-service",
  "android.hardware.wifi-service", "android.hardware.audio.service",
  "android.hardware.security.keymint-service",
  "android.hardware.security.fkeymaster-service",
  "android.hardware.security.drk@2.0-service",
  "android.hardware.security.engmode@1.0-service",
  "android.hardware.security.proca@2.0-service", "vendor.samsung.hardware.",
  "samsung.hardware.media.c2@1.2-service", "samsung.software.media.c2@1.0-service",
  "vaultkeeperd", "perfmond", "pageboostd", "multiclientd", "wlbtd", "kumiho.decoder",
  "gpuservice", "vndservicemanager", "prey", "preyproject", "android.process.media",
  "android.process.acore", "android.process", "zygote64", "zygote"]

/-- Embeds `is_system_process` (diagnose.py lines 183-193): an allow-listed
name prefix, or the absence of a package-style dot. -/
def is_system_process (name : String) : Bool :=
  system_names.any (fun n => listStartsWith name.data n.data) || !(name.data.contains '.')

/-! ### Snapshot builder (`collect_stats`, dashboard.py lines 107-139) -/

/-- Result record of `collect_stats` (the time-stamp fields and the constant
empty `jank`/`storage` dicts of the source are outside the model). -/
structure Stats where
  cpu : List ProcessSample
  ram : List MemoryEntry
  thermal : List (String × ℚ)
  mem_health : String
  free_ram : ℚ
  total_ram : ℚ
deriving DecidableEq

/-- The memory-health verdict of `collect_stats` (dashboard.py lines 123-127). -/
def mem_health_of (free_ram : ℚ) : String :=
  if free_ram < 500 then "low" else if free_ram < 1000 then "medium" else "good"

/-- The guarded memory parse of `collect_stats`: Python truthiness maps the
empty raw string to the empty list without calling the parser. -/
def ramOfRaw (ram_raw : String) : Except Unit (List MemoryEntry) :=
  if ram_raw == "" then Except.ok [] else collect_ram_stats_from_raw ram_raw

/-- The guarded cpu parse of `collect_stats` (Python truthiness again). -/
def cpuOfRaw (cpu_raw : String) : Except Unit (List ProcessSample) :=
  if cpu_raw == "" then Except.ok [] else collect_cpu_stats_from_raw cpu_raw

/-- The guarded thermal parse of `collect_stats`. -/
def thermalOfRaw (thermal_raw : String) : Except Unit (List (String × ℚ)) :=
  if thermal_raw == "" then Except.ok [] else collect_thermal_info_from_raw thermal_raw

/-- Embeds `collect_stats` as a function of the three raw command outputs
(the concurrent command invocation itself is the external boundary):
`total_ram` is the hardcoded 4096, `used_ram` sums all parsed entries,
`free_ram` their difference, with no clamping. -/
def collect_stats (cpu_raw ram_raw thermal_raw : String) : Except Unit Stats :=
  Except.bind (cpuOfRaw cpu_raw) (fun cpu =>
    Except.bind (ramOfRaw ram_raw) (fun ram =>
      Except.bind (thermalOfRaw thermal_raw) (fun thermal =>
        Except.ok ⟨cpu.take 5, ram.take 5, thermal,
          mem_health_of (4096 - (ram.map MemoryEntry.ram_mb).sum),
          4096 - (ram.map MemoryEntry.ram_mb).sum, 4096⟩)))

/-! ### Session aggregator (dashboard.py globals and endpoints) -/

/-- The mutable session globals of dashboard.py: `session_active` and
`session_data` (the monitor thread and lock carry no further state). -/
structure SessionState (α : Type) where
  session_active : Bool
  session_data : List α
deriving DecidableEq

/-- The initial globals: inactive, empty history. -/
def initSession {α : Type} : SessionState α := ⟨false, []⟩

/-- Embeds `api_session_start` (lines 409-417): a no-op while active,
otherwise activates and clears the history. -/
def api_session_start {α : Type} (s : SessionState α) : SessionState α :=
  if s.session_active then s else ⟨true, []⟩

/-- One tick of `session_monitor` (lines 149-155): append a snapshot while
active. -/
def session_tick {α : Type} (s : SessionState α) (snap : α) : SessionState α :=
  if s.session_active then ⟨true, s.session_data ++ [snap]⟩ else s

/-- Embeds `api_session_stop` (lines 419-431): deactivate and hand the
accumulated history to the exporter (the `json.dump` of the source); the
history itself is not cleared. -/
def api_session_stop {α : Type} (s : SessionState α) : SessionState α × List α :=
  (⟨false, s.session_data⟩, s.session_data)

/-! ### Concrete inputs used by the theorems below -/

/-- Process dump whose single data row carries `.` in the CPU and MEM columns:
the strict pattern matches it and `float('.')` then raises. -/
def cpuBadRaw : String := "  PID USER [%CPU]\n1 u a b c d e f . . : n"

/-- The frame-profile raw text of the spec's frame-parser example: the marker,
the rows `4.0 2.0 1.0` and `20.0 1.0 1.0`, and a trailing blank line. -/
def gfxClaimRaw : String := "Profile data in ms:\n4.0 2.0 1.0\n20.0 1.0 1.0\n\n"

/-- A two-entry memory dump (2 MB entry listed before 5 MB entry). -/
def ramRaw2 : String :=
  "Total RSS by process:\n2,048K: app.one (pid 10)\n5,120K: app.two (pid 11)\n"

/-- The parse result of `ramRaw2`, sorted descending. -/
def ramList2 : List MemoryEntry := [⟨"app.two", 11, 5⟩, ⟨"app.one", 10, 2⟩]

/-- A thermal dump line reporting a negative temperature. -/
def negTempRaw : String := "Temperature\x7bmValue=-5.0, mType=0, mName=BAT, mStatus=0\x7d"

/-- A thermal dump line reporting 38.1 degrees on sensor AP. -/
def tempRawAp : String := "Temperature\x7bmValue=38.1, mType=0, mName=AP, mStatus=0\x7d"

/-- A memory dump totalling 5120 MB, above the hardcoded 4096 MB capacity. -/
def bigRamRaw : String := "Total RSS by process:\n5,242,880K: big.app (pid 1)\n"

/-- The parse result of `bigRamRaw`. -/
def bigRamList : List MemoryEntry := [⟨"big.app", 1, 5120⟩]

/-- The snapshot built from `bigRamRaw` alone: free memory is negative. -/
def bigRamStats : Stats := ⟨[], [⟨"big.app", 1, 5120⟩], [], "low", -1024, 4096⟩

/-- A profile-section line whose middle token is not a float literal. -/
def badFrameLine : String := "4.0 abc 1.0"

/-! ## Theorems for the claims -/

/-- C1 (counterexample): `run_adb_command` of diagnose.py does not map a
non-zero exit code to the empty string: on exit code 1 it raises
`RuntimeError` (the `raise` on line 64 is caught by none of its `except`
clauses), so the claim that both helpers never raise and return the empty
string for a non-zero exit is false. -/
theorem C1_counterexample :
    run_adb_command ["adb"] (CmdOutcome.completed 1 ("out") ("boom"))
      = RunnerResult.raisedRuntimeError ("ADB error: adb\nboom") ∧
    run_adb_command ["adb"] (CmdOutcome.completed 1 ("out") ("boom"))
      ≠ RunnerResult.returned ("") := by
  constructor <;> decide

/-- C1 (amended): `run_adb` of dashboard.py returns the empty string for every
non-zero exit code, timeout and missing binary; `run_adb_command` of
diagnose.py returns the empty string on a timeout but raises `RuntimeError`
on a non-zero exit code. -/
theorem C1_amended (cmd : List String) (rc : ℤ) (out err : String) (h : rc ≠ 0) :
    run_adb (CmdOutcome.completed rc out err) = "" ∧
    run_adb CmdOutcome.timedOut = "" ∧
    run_adb CmdOutcome.adbMissing = "" ∧
    run_adb_command cmd CmdOutcome.timedOut = RunnerResult.returned ("") ∧
    run_adb_command cmd (CmdOutcome.completed rc out err)
      = RunnerResult.raisedRuntimeError (adbErrorMessage cmd err) := by
  have hb : (rc == 0) = false := by simpa using h
  refine ⟨?_, rfl, rfl, rfl, ?_⟩ <;> simp [run_adb, run_adb_command, hb]

/-- C1 (witness): the amended statement applied at exit code 1. -/
theorem C1_witness :
    run_adb (CmdOutcome.completed 1 ("out") ("err")) = "" ∧
    run_adb_command ["adb"] CmdOutcome.timedOut = RunnerResult.returned ("") := by
  have h := C1_amended ["adb"] 1 ("out") ("err") (by decide)
  exact ⟨h.1, h.2.2.2.1⟩

/-- C2 (counterexample): after start, one tick, and a stop, a second stop
still returns the recorded snapshot rather than an empty sequence, because
`api_session_stop` never clears `session_data` (only `api_session_start`
does). -/
theorem C2_counterexample :
    (api_session_stop
      ((api_session_stop
        (session_tick (api_session_start (initSession : SessionState ℕ)) 0)).1)).2 = [0] ∧
    (api_session_stop
      ((api_session_stop
        (session_tick (api_session_start (initSession : SessionState ℕ)) 0)).1)).2 ≠ [] := by
  constructor <;> decide

/-- C2 (amended): stopping returns the accumulated ordered history and
deactivates the session but leaves the history in place, so a second stop
returns the same sequence again; the history is only cleared by the next
start; stopping from the initial idle state returns the empty sequence; and
starting while already running is a no-op. -/
theorem C2_amended {α : Type} (s : SessionState α) :
    (api_session_stop s).2 = s.session_data ∧
    (api_session_stop s).1 = ⟨false, s.session_data⟩ ∧
    (api_session_stop ((api_session_stop s).1)).2 = s.session_data ∧
    (s.session_active = true → api_session_start s = s) ∧
    (api_session_stop (initSession : SessionState α)).2 = [] := by
  refine ⟨rfl, rfl, rfl, ?_, rfl⟩
  intro h
  unfold api_session_start
  rw [h]
  simp

/-- C2 (witness): the amended statement applied to an active session holding
one snapshot. -/
theorem C2_witness :
    (api_session_stop (⟨true, [0]⟩ : SessionState ℕ)).2 = [0] ∧
    api_session_start (⟨true, [0]⟩ : SessionState ℕ) = ⟨true, [0]⟩ := by
  have h := C2_amended (⟨true, [0]⟩ : SessionState ℕ)
  exact ⟨h.1, h.2.2.2.1 rfl⟩

unseal Rat.add Rat.mul Rat.inv in
/-- C4 (counterexample): on the spec's own frame-profile example the average
frame time is not 13.5 ms: the frame sums are 7.0 and 22.0, whose mean is
14.5. -/
theorem C4_counterexample :
    (collect_gfx_stats_from_raw gfxClaimRaw).avg_frame_time_ms ≠ some ((27 : ℚ) / 2) := by
  decide

unseal Rat.add Rat.mul Rat.inv in
/-- C4 (amended): for the marker line followed by `4.0 2.0 1.0`,
`20.0 1.0 1.0` and a trailing blank line, the frame parser returns an
average frame time of 14.5 ms, one jank frame (22.0 exceeds 16.67, 7.0 does
not) and two total frames. -/
theorem C4_amended :
    collect_gfx_stats_from_raw gfxClaimRaw = ⟨some ((29 : ℚ) / 2), some 1, 2⟩ := by
  decide

/-- Decomposition of a successful `collect_stats` run into its three parses
and the shape of the resulting record. -/
lemma collect_stats_ok {c r t : String} {s : Stats}
    (h : collect_stats c r t = Except.ok s) :
    ∃ cpu ram thermal,
      ramOfRaw r = Except.ok ram ∧
      s = ⟨List.take 5 cpu, List.take 5 ram, thermal,
            mem_health_of (4096 - (ram.map MemoryEntry.ram_mb).sum),
            4096 - (ram.map MemoryEntry.ram_mb).sum, 4096⟩ := by
  unfold collect_stats at h
  cases hc : cpuOfRaw c with
  | error e => rw [hc] at h; exact absurd h (by simp [Except.bind])
  | ok cpu =>
    rw [hc] at h
    simp only [Except.bind] at h
    cases hr : ramOfRaw r with
    | error e => rw [hr] at h; exact absurd h (by simp [Except.bind])
    | ok ram =>
      rw [hr] at h
      simp only [Except.bind] at h
      cases ht : thermalOfRaw t with
      | error e => rw [ht] at h; exact absurd h (by simp [Except.bind])
      | ok thermal =>
        rw [ht] at h
        simp only [Except.bind] at h
        refine ⟨cpu, ram, thermal, rfl, ?_⟩
        injection h with h'
        exact h'.symm

/-- C6: the memory-health verdict of `collect_stats` is the pure fixed-band
function of free memory: `low` exactly below 500, `medium` exactly on
`[500, 1000)`, `good` exactly from 1000 up; in particular 499.9 gives `low`,
999.99 gives `medium` and 1000.0 gives `good`. -/
theorem C6_mem_health (free : ℚ) :
    (mem_health_of free = "low" ↔ free < 500) ∧
    (mem_health_of free = "medium" ↔ 500 ≤ free ∧ free < 1000) ∧
    (mem_health_of free = "good" ↔ 1000 ≤ free) ∧
    mem_health_of ((4999 : ℚ) / 10) = "low" ∧
    mem_health_of ((99999 : ℚ) / 100) = "medium" ∧
    mem_health_of 1000 = "good" ∧
    (∀ c r t s, collect_stats c r t = Except.ok s →
      s.mem_health = mem_health_of s.free_ram) := by
  refine ⟨?_, ?_, ?_, by norm_num [mem_health_of], by norm_num [mem_health_of],
    by norm_num [mem_health_of], ?_⟩
  · unfold mem_health_of
    split_ifs with h1 h2
    · simp [h1]
    · constructor
      · intro hEq; exact absurd hEq (by decide)
      · intro hcon; exact absurd hcon h1
    · constructor
      · intro hEq; exact absurd hEq (by decide)
      · intro hcon; exact absurd hcon h1
  · unfold mem_health_of
    split_ifs with h1 h2
    · constructor
      · intro hEq; exact absurd hEq (by decide)
      · rintro ⟨hge, _⟩; linarith
    · exact ⟨fun _ => ⟨le_of_not_lt h1, h2⟩, fun _ => rfl⟩
    · constructor
      · intro hEq; exact absurd hEq (by decide)
      · rintro ⟨_, hlt⟩; exact absurd hlt h2
  · unfold mem_health_of
    split_ifs with h1 h2
    · constructor
      · intro hEq; exact absurd hEq (by decide)
      · intro hge; linarith
    · constructor
      · intro hEq; exact absurd hEq (by decide)
      · intro hge; linarith
    · exact ⟨fun _ => le_of_not_lt h2, fun _ => rfl⟩
  · intro c r t s h
    obtain ⟨cpu, ram, thermal, _, hshape⟩ := collect_stats_ok h
    subst hshape
    rfl

/-- C6 (witness): the statement applied at free memory 0 and at the three
boundary examples. -/
theorem C6_witness :
    mem_health_of 0 = "low" ∧ mem_health_of ((4999 : ℚ) / 10) = "low" ∧
    mem_health_of ((99999 : ℚ) / 100) = "medium" ∧ mem_health_of 1000 = "good" := by
  have h := C6_mem_health 0
  exact ⟨h.1.mpr (by norm_num), h.2.2.2.1, h.2.2.2.2.1, h.2.2.2.2.2.1⟩

/-- C7: `is_system_process` returns true exactly when the name has no dot or
starts with an entry of the fixed allow-list; in particular `zygote` is
system, `com.example.app` is not, `vendor.qti.something` is. -/
theorem C7_is_system_process (name : String) :
    (is_system_process name = true ↔
      (name.data.contains '.' = false ∨
        ∃ p ∈ system_names, listStartsWith name.data p.data = true)) ∧
    is_system_process ("zygote") = true ∧
    is_system_process ("com.example.app") = false ∧
    is_system_process ("vendor.qti.something") = true := by
  refine ⟨?_, by decide, by decide, by decide⟩
  unfold is_system_process
  rw [Bool.or_eq_true, List.any_eq_true, Bool.not_eq_true', or_comm]

/-- C7 (witness): the equivalence applied at the name `zygote`. -/
theorem C7_witness :
    is_system_process ("zygote") = true ∧
    (("zygote" : String).data.contains '.' = false ∨
      ∃ p ∈ system_names, listStartsWith ("zygote" : String).data p.data = true) := by
  have h := C7_is_system_process ("zygote")
  exact ⟨h.2.1, h.1.mp h.2.1⟩

/-- C5: whatever the input, a successfully returned memory sequence is sorted
descending by `ram_mb`: for indices `i < j` the entry at `j` carries at most
the RAM of the entry at `i` (the parser ends with a descending stable sort). -/
theorem C5_ram_sorted (raw : String) (l : List MemoryEntry)
    (h : collect_ram_stats_from_raw raw = Except.ok l)
    (i j : Fin l.length) (hij : i < j) :
    (l.get j).ram_mb ≤ (l.get i).ram_mb := by
  unfold collect_ram_stats_from_raw at h
  split at h
  case h_1 =>
    injection h with h'
    subst h'
    exact absurd i.isLt (by simp)
  case h_2 rows hm =>
    cases hr : ramRows rows with
    | error e => rw [hr] at h; exact absurd h (by simp [Except.map])
    | ok l0 =>
      rw [hr] at h
      simp only [Except.map] at h
      injection h with h'
      have hl : l = l0.mergeSort ramLe := h'.symm
      subst hl
      have htrans : ∀ a b c : MemoryEntry,
          ramLe a b = true → ramLe b c = true → ramLe a c = true := by
        intro a b c hab hbc
        simp only [ramLe, decide_eq_true_eq] at *
        exact le_trans hbc hab
      have htotal : ∀ a b : MemoryEntry, (ramLe a b || ramLe b a) = true := by
        intro a b
        simp only [ramLe, Bool.or_eq_true, decide_eq_true_eq]
        exact le_total b.ram_mb a.ram_mb
      have hp := List.sorted_mergeSort htrans htotal l0
      have := (List.pairwise_iff_get.mp hp) i j hij
      simpa [ramLe] using this

unseal List.merge List.mergeSort Rat.add Rat.mul Rat.inv in
/-- C5 (witness): the statement applied to a concrete two-entry dump listed
ascending in the raw text and returned descending. -/
theorem C5_witness :
    (ramList2.get ⟨1, by decide⟩).ram_mb ≤ (ramList2.get ⟨0, by decide⟩).ram_mb :=
  C5_ram_sorted ramRaw2 ramList2 (by decide) ⟨0, by decide⟩ ⟨1, by decide⟩ (by decide)

/-- C3 (counterexample): the CPU parser is not total: on a dump whose header
is followed by a row carrying `.` in the CPU and MEM columns, the strict
pattern matches (`[\d.]+` accepts a lone dot) and `float('.')` raises
`ValueError`, so the parser raises instead of skipping or degrading. -/
theorem C3_counterexample :
    collect_cpu_stats_from_raw cpuBadRaw = Except.error () := by decide

/-- C3 (amended): the parsers degrade to an empty result when their header or
section marker or pattern is absent (shown for the cpu, ram and thermal
parsers), and a parser exception can only come from a numeral conversion on
a structurally matched line: a cpu row that raises was matched by the strict
or the loose pattern, and a raising cpu parse contains a raising row; on
inputs whose matched numeric fields are all valid numerals the parsers
return normally (the frame and services parsers, which convert no captured
text or catch `ValueError` locally, are total by construction). -/
theorem C3_amended :
    (∀ raw, linesAfterCpuHeader
        (((pySplitlines raw).filter (fun l => !(pyStrip l == ""))).map strip_ansi) = none →
      collect_cpu_stats_from_raw raw = Except.ok []) ∧
    (∀ raw, linesAfterRamMarker (pySplitlines raw) = none →
      collect_ram_stats_from_raw raw = Except.ok []) ∧
    (∀ raw, (∀ l ∈ pySplitlines raw, searchTemp l.data = none) →
      collect_thermal_info_from_raw raw = Except.ok []) ∧
    (∀ line, cpuRow line = Except.error () →
      (matchCpuStrict line.data).isSome = true ∨ (matchCpuLoose line.data).isSome = true) ∧
    (∀ rows, cpuRows rows = Except.error () → ∃ l ∈ rows, cpuRow l = Except.error ()) := by
  have thermalAux : ∀ (ls : List String) (d : List (String × ℚ)),
      (∀ l ∈ ls, searchTemp l.data = none) → thermalLines ls d = Except.ok d := by
    intro ls
    induction ls with
    | nil => intro d _; rfl
    | cons l ls ih =>
      intro d hall
      unfold thermalLines
      rw [hall l (List.mem_cons_self l ls)]
      exact ih d (fun l' hl' => hall l' (List.mem_cons_of_mem _ hl'))
  refine ⟨?_, ?_, ?_, ?_, ?_⟩
  · intro raw h
    simp [collect_cpu_stats_from_raw, h]
  · intro raw h
    simp [collect_ram_stats_from_raw, h]
  · intro raw h
    exact thermalAux _ _ h
  · intro line h
    unfold cpuRow at h
    split at h
    next g heq => exact Or.inl (by simp [heq])
    next heq =>
      split at h
      next g heq2 => exact Or.inr (by simp [heq2])
      next heq2 => exact absurd h (by simp)
  · intro rows h
    induction rows with
    | nil => exact absurd h (by simp [cpuRows])
    | cons l ls ih =>
      unfold cpuRows at h
      split at h
      next e heq => cases e; exact ⟨l, List.mem_cons_self l ls, heq⟩
      next hd heq =>
        split at h
        next e heq2 =>
          cases e
          obtain ⟨l', hl', he⟩ := ih heq2
          exact ⟨l', List.mem_cons_of_mem _ hl', he⟩
        next rest heq2 =>
          cases hd <;> simp at h

/-- C3 (witness): the degradation conjuncts applied to inputs without a
header, section marker, or matching thermal line. -/
theorem C3_witness :
    collect_cpu_stats_from_raw ("no header") = Except.ok [] ∧
    collect_ram_stats_from_raw ("no marker") = Except.ok [] ∧
    collect_thermal_info_from_raw ("no temps") = Except.ok [] := by
  refine ⟨C3_amended.1 ("no header") (by decide), C3_amended.2.1 ("no marker") (by decide),
    C3_amended.2.2.1 ("no temps") (by decide)⟩

/-- The power-of-ten scale is positive. -/
lemma pow10_pos (n : ℕ) : 0 < pow10 n := by
  unfold pow10
  exact_mod_cast pow_pos (by norm_num : (0 : ℕ) < 10) n

/-- Mantissa values are nonnegative. -/
lemma pyMantissa_nonneg (ip fp : List Char) : 0 ≤ pyMantissa ip fp :=
  add_nonneg (Nat.cast_nonneg _) (div_nonneg (Nat.cast_nonneg _) (le_of_lt (pow10_pos _)))

/-- Exponent scale factors are nonnegative. -/
lemma pyExpScale_nonneg {s : List Char} {e : ℚ} (h : pyExpScale s = some e) : 0 ≤ e := by
  unfold pyExpScale at h
  split at h
  case h_1 r =>
    obtain ⟨n, -, rfl⟩ := Option.map_eq_some'.mp h
    exact le_of_lt (pow10_pos n)
  case h_2 r =>
    obtain ⟨n, -, rfl⟩ := Option.map_eq_some'.mp h
    exact inv_nonneg.mpr (le_of_lt (pow10_pos n))
  case h_3 =>
    obtain ⟨n, -, rfl⟩ := Option.map_eq_some'.mp h
    exact le_of_lt (pow10_pos n)

/-- The full exponent suffix yields a nonnegative scale. -/
lemma pyExponent_nonneg {s : List Char} {e : ℚ} (h : pyExponent s = some e) : 0 ≤ e := by
  unfold pyExponent at h
  split at h
  case h_1 =>
    injection h with h'
    exact h' ▸ zero_le_one
  case h_2 r => exact pyExpScale_nonneg h
  case h_3 r => exact pyExpScale_nonneg h
  case h_4 => exact absurd h (by simp)

/-- An unsigned float literal has a nonnegative value. -/
lemma pyFloatUnsigned_nonneg {s : List Char} {q : ℚ} (h : pyFloatUnsigned s = some q) :
    0 ≤ q := by
  unfold pyFloatUnsigned at h
  split at h
  case h_1 r2 =>
    split_ifs at h with hc
    obtain ⟨e', he', rfl⟩ := Option.map_eq_some'.mp h
    exact mul_nonneg (pyMantissa_nonneg _ _) (pyExponent_nonneg he')
  case h_2 =>
    split_ifs at h with hc
    obtain ⟨e', he', rfl⟩ := Option.map_eq_some'.mp h
    exact mul_nonneg (pyMantissa_nonneg _ _) (pyExponent_nonneg he')

/-- On a string without a sign character (such as any capture of the class
of digits and dots), a parsed float value is nonnegative. -/
lemma pyFloat_nonneg {s : List Char} {q : ℚ}
    (hs : ∀ c ∈ s, isDigitDotChar c = true) (h : pyFloat s = some q) : 0 ≤ q := by
  unfold pyFloat at h
  split at h
  case h_1 r => exact absurd (hs '+' (List.mem_cons_self _ _)) (by decide)
  case h_2 r => exact absurd (hs '-' (List.mem_cons_self _ _)) (by decide)
  case h_3 => exact pyFloatUnsigned_nonneg h

/-- A matched group consists of characters satisfying its class. -/
lemma takeGroup_mem {p : Char → Bool} {s g rest : List Char}
    (h : takeGroup p s = some (g, rest)) : ∀ c ∈ g, p c = true := by
  unfold takeGroup at h
  split_ifs at h
  injection h with h'
  intro c hc
  have hg : g = s.takeWhile p := (congrArg Prod.fst h').symm
  exact List.mem_takeWhile_imp (hg ▸ hc)

/-- The value group matched by the thermal pattern holds only digits and dots. -/
lemma tempHere_value {s v nm : List Char} (h : tempHere s = some (v, nm)) :
    ∀ c ∈ v, isDigitDotChar c = true := by
  unfold tempHere at h
  simp only [Option.bind_eq_bind, Option.bind_eq_some] at h
  obtain ⟨s1, -, ⟨value, s2⟩, hg, s3, -, ⟨t1, s4⟩, -, s5, -, ⟨name, s6⟩, -, s7, -,
    ⟨t2, s8⟩, -, s9, -, hfin⟩ := h
  injection hfin with h'
  have hv : value = v := congrArg Prod.fst h'
  exact hv ▸ takeGroup_mem hg

/-- The group property carried through the leftmost search. -/
lemma searchTemp_value {s v nm : List Char} (h : searchTemp s = some (v, nm)) :
    ∀ c ∈ v, isDigitDotChar c = true := by
  induction s with
  | nil => exact absurd h (by simp [searchTemp])
  | cons c0 cs ih =>
    unfold searchTemp at h
    split at h
    case h_1 r heq =>
      injection h with h'
      subst h'
      exact tempHere_value heq
    case h_2 heq => exact ih h

/-- Values in a dict stay nonnegative under an insert of a nonnegative value. -/
lemma dictInsert_nonneg {d : List (String × ℚ)} {k : String} {v : ℚ}
    (hd : ∀ p ∈ d, 0 ≤ p.2) (hv : 0 ≤ v) : ∀ p ∈ dictInsert d k v, 0 ≤ p.2 := by
  unfold dictInsert
  split_ifs with hmem
  · intro p hp
    obtain ⟨p0, hp0, hpe⟩ := List.mem_map.mp hp
    by_cases hk : p0.1 == k
    · rw [if_pos hk] at hpe
      exact hpe ▸ hv
    · rw [if_neg hk] at hpe
      exact hpe ▸ hd p0 hp0
  · intro p hp
    rcases List.mem_append.mp hp with hp1 | hp2
    · exact hd p hp1
    · rw [List.mem_singleton.mp hp2]
      exact hv

/-- Every value accumulated by the thermal line loop is nonnegative. -/
lemma thermalLines_nonneg :
    ∀ (ls : List String) (d out : List (String × ℚ)),
      (∀ p ∈ d, 0 ≤ p.2) → thermalLines ls d = Except.ok out → ∀ p ∈ out, 0 ≤ p.2 := by
  intro ls
  induction ls with
  | nil =>
    intro d out hd h
    injection h with h'
    exact h' ▸ hd
  | cons l ls ih =>
    intro d out hd h
    unfold thermalLines at h
    split at h
    case h_1 v name heq =>
      split at h
      case h_1 q heq2 =>
        have hq : pyFloat v = some q := by
          unfold pyFloatExc at heq2
          split at heq2
          · injection heq2 with h'
            simp_all
          · exact absurd heq2 (by simp)
        have hv : 0 ≤ q := pyFloat_nonneg (searchTemp_value heq) hq
        exact ih _ _ (dictInsert_nonneg hd hv) h
      case h_2 e heq2 => exact absurd h (by simp)
    case h_2 heq => exact ih _ _ hd h

/-- C8: every temperature in a successfully returned thermal map is
nonnegative (the value class cannot capture a minus sign), and a
`Temperature` entry reporting a negative value is dropped: the dump line
with `mValue=-5.0` parses to the empty map. -/
theorem C8_thermal_nonneg (raw : String) (d : List (String × ℚ))
    (h : collect_thermal_info_from_raw raw = Except.ok d) :
    (∀ p ∈ d, 0 ≤ p.2) ∧ collect_thermal_info_from_raw negTempRaw = Except.ok [] := by
  refine ⟨?_, by decide⟩
  exact thermalLines_nonneg _ _ _ (by simp) h

unseal Rat.add Rat.mul Rat.inv in
/-- C8 (witness): the statement applied to a dump reporting 38.1 degrees. -/
theorem C8_witness : 0 ≤ ((381 : ℚ) / 10) :=
  (C8_thermal_nonneg tempRawAp [("AP", (381 : ℚ) / 10)] (by decide)).1
    ("AP", (381 : ℚ) / 10) (List.mem_singleton.mpr rfl)

/-- C9: inside the profile section, a nonblank non-marker line with exactly
three whitespace-separated tokens of which some token fails `float()` is
skipped — the loop state is unchanged and the line contributes no frame;
only lines whose three tokens all convert are counted. -/
theorem C9_bad_token_skipped (line : String) (rest : List String)
    (h1 : listContainsSub line.data gfxMarker.data = false)
    (h2 : (pyStrip line == "") = false)
    (h3 : ∃ a b c, pySplit (pyStrip line) = [a, b, c] ∧
      (pyFloat a.data = none ∨ pyFloat b.data = none ∨ pyFloat c.data = none)) :
    gfxFrameTimes (line :: rest) true = gfxFrameTimes rest true ∧
    parseFrameLine line = none := by
  obtain ⟨a, b, c, hsplit, hbad⟩ := h3
  have hp : parseFrameLine line = none := by
    unfold parseFrameLine
    rw [hsplit]
    cases ha : pyFloat a.data with
    | none => simp [ha]
    | some x =>
      cases hb : pyFloat b.data with
      | none => simp [ha, hb]
      | some y =>
        cases hc : pyFloat c.data with
        | none => simp [ha, hb, hc]
        | some z =>
          rcases hbad with h | h | h
          · exact absurd ha (h ▸ by simp)
          · exact absurd hb (h ▸ by simp)
          · exact absurd hc (h ▸ by simp)
  refine ⟨?_, hp⟩
  conv_lhs => rw [gfxFrameTimes]
  simp [h1, h2, hp]

/-- C9 (witness): the statement applied to the line `4.0 abc 1.0`. -/
theorem C9_witness :
    gfxFrameTimes [badFrameLine] true = gfxFrameTimes [] true ∧
    parseFrameLine badFrameLine = none :=
  C9_bad_token_skipped badFrameLine [] (by decide) (by decide)
    ⟨"4.0", "abc", "1.0", by decide, Or.inr (Or.inl (by decide))⟩

/-- C10: free memory is not clamped at zero: whenever the parsed memory
entries sum to more than the hardcoded 4096 MB total, `collect_stats`
returns a negative `free_ram` and reports `mem_health` as `low`. -/
theorem C10_negative_free_ram (c r t : String) (l : List MemoryEntry) (s : Stats)
    (hr : ramOfRaw r = Except.ok l)
    (hs : collect_stats c r t = Except.ok s)
    (hsum : 4096 < (l.map MemoryEntry.ram_mb).sum) :
    s.free_ram < 0 ∧ s.mem_health = "low" := by
  obtain ⟨cpu, ram, thermal, hr2, hshape⟩ := collect_stats_ok hs
  rw [hr] at hr2
  injection hr2 with hl
  subst hl
  subst hshape
  constructor
  · simp only
    linarith
  · simp only
    unfold mem_health_of
    rw [if_pos (by linarith)]

unseal List.merge List.mergeSort Rat.add Rat.mul Rat.inv Rat.sub in
/-- C10 (witness): the statement applied to a dump totalling 5120 MB: the
snapshot reports free memory of -1024 MB and the verdict `low`. -/
theorem C10_witness : bigRamStats.free_ram < 0 ∧ bigRamStats.mem_health = "low" :=
  C10_negative_free_ram ("") bigRamRaw ("") bigRamList bigRamStats
    (by decide) (by decide) (by decide)

end SAMscope
